import Mathlib

/-!
Shallow embedding of the `clog` Go logging package (src/clog.go) and proofs
about its claimed behaviour.

Modelling conventions:

* `LogLevel` is `Int`, because the Go source declares `type LogLevel int`
  and the six named levels with `iota` (0..5).
* Process-wide mutable configuration (`currentLogLevel`, `showFileLine`,
  `showGoroutineID`) becomes an explicit `State` record that is threaded
  through the functions; the setters are `State → State` functions.
* Ambient runtime data consumed by one emission call is gathered in `Env`:
  the rendered timestamp string (Go: `time.Now().UTC().Format(...)`), the
  result of `runtime.Caller(3)` (`none` models `ok == false`), and the raw
  stack dump string produced by `runtime.Stack` (`string(buf[:n])`).
* Message interpolation (`fmt.Sprintf(format, args...)`) is external to the
  package; each channel therefore takes the already interpolated message
  string, and `Metric` takes the `%v` rendering of its value.
* Standard output is modelled as the list of strings written by
  `fmt.Println` calls, each written string carrying its trailing newline.
  A run-time panic raised inside formatting (Go: index out of range in
  `getGoroutineID`) is modelled by the result `none`; a normal return with
  k lines written is `some` of the k-element list.
* The colour escape sequences added by `color.New(...).Sprint` depend on
  terminal detection and are outside the package; the prefixes are modelled
  as their plain text.
-/

namespace Clog

/-- Go: `type LogLevel int`. -/
abbrev LogLevel := Int

/-- Go: `PanicLevel LogLevel = iota` (value 0). -/
def PanicLevel : LogLevel := 0

/-- Go: `ErrorLevel` (value 1). -/
def ErrorLevel : LogLevel := 1

/-- Go: `WarningLevel` (value 2). -/
def WarningLevel : LogLevel := 2

/-- Go: `InfoLevel` (value 3). -/
def InfoLevel : LogLevel := 3

/-- Go: `DebugLevel` (value 4). -/
def DebugLevel : LogLevel := 4

/-- Go: `TraceLevel` (value 5). -/
def TraceLevel : LogLevel := 5

/-- The six members of the severity enumeration. -/
def enumLevels : List LogLevel :=
  [PanicLevel, ErrorLevel, WarningLevel, InfoLevel, DebugLevel, TraceLevel]

/-- The package-level mutable configuration variables of src/clog.go. -/
structure State where
  currentLogLevel : LogLevel
  showFileLine : Bool
  showGoroutineID : Bool
deriving Repr, DecidableEq

/-- Go: `currentLogLevel = InfoLevel; showFileLine = true; showGoroutineID = true`. -/
def initialState : State := ⟨InfoLevel, true, true⟩

/-- Ambient runtime inputs of one emission call (see module comment). -/
structure Env where
  timestamp : String
  caller : Option (String × Nat)
  stack : String
deriving Repr, DecidableEq

/-- Go: `func SetLogLevel(level LogLevel) { currentLogLevel = level }`. -/
def SetLogLevel (level : LogLevel) (st : State) : State :=
  { st with currentLogLevel := level }

/-- Go: `func SetShowFileLine(show bool) { showFileLine = show }`. -/
def SetShowFileLine (sh : Bool) (st : State) : State :=
  { st with showFileLine := sh }

/-- Go: `func SetShowGoroutineID(show bool) { showGoroutineID = show }`. -/
def SetShowGoroutineID (sh : Bool) (st : State) : State :=
  { st with showGoroutineID := sh }

/-- Go: `filepath.Base` for slash-separated paths: empty path gives ".",
trailing slashes are stripped, the last element is returned, an all-slash
path gives "/". -/
def filepathBase (p : String) : String :=
  if p = "" then "." else
  let r := p.data.reverse.dropWhile (fun c => c = '/')
  if r = [] then "/" else String.mk ((r.takeWhile (fun c => c ≠ '/')).reverse)

/-- Go: `func getFileInfo() string`. Returns "" when the annotation is
disabled or `runtime.Caller` reports `!ok`; otherwise
`fmt.Sprintf("%s:%d", filepath.Base(file), line)`. -/
def getFileInfo (showFL : Bool) (caller : Option (String × Nat)) : String :=
  if !showFL then "" else
  match caller with
  | none => ""
  | some (file, line) => filepathBase file ++ ":" ++ toString line

/-- Whitespace as used by Go `strings.Fields` (ASCII fragment of
`unicode.IsSpace`; stack dumps are ASCII). -/
def goSpace (c : Char) : Bool :=
  c = ' ' || c = '\t' || c = '\n' || c = '\x0b' || c = '\x0c' || c = '\r'

/-- Go: `strings.Fields`: the maximal runs of non-whitespace characters. -/
def goFields (s : String) : List String :=
  ((s.data.splitOnP goSpace).filter (fun t => t ≠ [])).map String.mk

/-- Go: `strings.TrimPrefix(s, pre)`. -/
def goTrimStart (s pre : String) : String :=
  if pre.data.isPrefixOf s.data then String.mk (s.data.drop pre.data.length) else s

/-- Go: `func getGoroutineID() string`. Returns `some ""` when disabled;
otherwise takes field `[0]` of the trimmed stack dump. `none` models the Go
index-out-of-range panic of `...Fields(...)[0]` when there is no field. -/
def getGoroutineID (showG : Bool) (stack : String) : Option String :=
  if !showG then some "" else
  match goFields (goTrimStart stack "goroutine ") with
  | [] => none
  | id :: _ => some ("(goroutine " ++ id ++ ")")

/-- The part of the assembled line before the final `" " ++ msg`: prefix,
bracketed timestamp, optional bracketed file info, optional goroutine info. -/
def assembleHead (pfx : String) (st : State) (env : Env) (g : String) : String :=
  let fileInfo := getFileInfo st.showFileLine env.caller
  let m1 := pfx ++ " [" ++ env.timestamp ++ "]"
  let m2 := if fileInfo ≠ "" then m1 ++ " [" ++ fileInfo ++ "]" else m1
  if g ≠ "" then m2 ++ " " ++ g else m2

/-- The line-assembly core of `logWithTimestamp`: prefix, bracketed
timestamp, optional bracketed file info, optional goroutine info, message. -/
def assembleLine (pfx : String) (st : State) (env : Env) (g msg : String) : String :=
  assembleHead pfx st env g ++ " " ++ msg

/-- Go: `func logWithTimestamp(prefix, msg string, level LogLevel)`.
Returns early (no output) when `level > currentLogLevel`; otherwise
resolves the annotations, assembles the line and prints it with
`fmt.Println` (which appends a newline). -/
def logWithTimestamp (pfx msg : String) (level : LogLevel) (st : State) (env : Env) :
    Option (List String) :=
  if st.currentLogLevel < level then some [] else
  match getGoroutineID st.showGoroutineID env.stack with
  | none => none
  | some g => some [assembleLine pfx st env g msg ++ "\n"]

/-- Plain text of `infoPrefix` (colour escapes modelled away). -/
def infoPrefix : String := "ℹ️  INFO     "

/-- Plain text of `successPrefix`. -/
def successPrefix : String := "✅ SUCCESS  "

/-- Plain text of `initPrefix`. -/
def initPrefix : String := "🚀 INIT     "

/-- Plain text of `configPrefix`. -/
def configPrefix : String := "⚙️  CONFIG   "

/-- Plain text of `warningPrefix`. -/
def warningPrefix : String := "⚠️  WARNING  "

/-- Plain text of `errorPrefix`. -/
def errorPrefix : String := "❌ ERROR    "

/-- Plain text of `debugPrefix`. -/
def debugPrefix : String := "🔍 DEBUG    "

/-- Plain text of `tracePrefix`. -/
def tracePrefix : String := "📍 TRACE    "

/-- Plain text of `panicPrefix`. -/
def panicPrefix : String := "💥 PANIC    "

/-- Plain text of `metricPrefix`. -/
def metricPrefix : String := "📊 METRIC   "

/-- Go: `func Info(format string, args ...interface{})`; `msg` is the
interpolated `fmt.Sprintf(format, args...)`. -/
def Info (msg : String) (st : State) (env : Env) : Option (List String) :=
  logWithTimestamp infoPrefix msg InfoLevel st env

/-- Go: `func Success(...)`, bound to `InfoLevel`. -/
def Success (msg : String) (st : State) (env : Env) : Option (List String) :=
  logWithTimestamp successPrefix msg InfoLevel st env

/-- Go: `func Init(...)`, bound to `InfoLevel`. -/
def Init (msg : String) (st : State) (env : Env) : Option (List String) :=
  logWithTimestamp initPrefix msg InfoLevel st env

/-- Go: `func Config(...)`, bound to `InfoLevel`. -/
def Config (msg : String) (st : State) (env : Env) : Option (List String) :=
  logWithTimestamp configPrefix msg InfoLevel st env

/-- Go: `func Warning(...)`, bound to `WarningLevel`. -/
def Warning (msg : String) (st : State) (env : Env) : Option (List String) :=
  logWithTimestamp warningPrefix msg WarningLevel st env

/-- Go: `func Error(...)`, bound to `ErrorLevel`. -/
def Error (msg : String) (st : State) (env : Env) : Option (List String) :=
  logWithTimestamp errorPrefix msg ErrorLevel st env

/-- Go: `func Debug(...)`, bound to `DebugLevel`. -/
def Debug (msg : String) (st : State) (env : Env) : Option (List String) :=
  logWithTimestamp debugPrefix msg DebugLevel st env

/-- Go: `func Trace(...)`, bound to `TraceLevel`. -/
def Trace (msg : String) (st : State) (env : Env) : Option (List String) :=
  logWithTimestamp tracePrefix msg TraceLevel st env

/-- Go: `func Panic(format string, args ...interface{})`: interpolates the
message, logs it at `PanicLevel`, then calls `panic(msg)` unconditionally.
The first component is the stdout output of the logging step, the second
the value carried by the panic. -/
def Panic (msg : String) (st : State) (env : Env) : Option (List String) × String :=
  (logWithTimestamp panicPrefix msg PanicLevel st env, msg)

/-- Go: `func Metric(name string, value interface{}, tags ...string)`;
`value` is the `%v` rendering of the Go value. -/
def Metric (name value : String) (tags : List String) (st : State) (env : Env) :
    Option (List String) :=
  let tagStr := if tags.length > 0 then " [" ++ String.intercalate ", " tags ++ "]" else ""
  logWithTimestamp metricPrefix (name ++ ": " ++ value ++ tagStr) InfoLevel st env

/-! ### Helper lemmas -/

/-- A call filtered out by the threshold writes nothing. -/
theorem logWithTimestamp_filtered (pfx msg : String) (lvl : LogLevel) (st : State)
    (env : Env) (h : st.currentLogLevel < lvl) :
    logWithTimestamp pfx msg lvl st env = some [] := by
  unfold logWithTimestamp
  simp [h]

/-- A call that passes the threshold and resolves the goroutine lookup
writes exactly the assembled line. -/
theorem logWithTimestamp_emit (pfx msg : String) (lvl : LogLevel) (st : State)
    (env : Env) (g : String)
    (hg : getGoroutineID st.showGoroutineID env.stack = some g)
    (h : lvl ≤ st.currentLogLevel) :
    logWithTimestamp pfx msg lvl st env = some [assembleLine pfx st env g msg ++ "\n"] := by
  unfold logWithTimestamp
  rw [if_neg (not_lt.mpr h), hg]

/-- A call writes the empty output iff the threshold filters it out. -/
theorem logWithTimestamp_eq_nil_iff (pfx msg : String) (lvl : LogLevel) (st : State)
    (env : Env) :
    logWithTimestamp pfx msg lvl st env = some [] ↔ st.currentLogLevel < lvl := by
  unfold logWithTimestamp
  by_cases h : st.currentLogLevel < lvl
  · simp [h]
  · rw [if_neg h]
    cases hg : getGoroutineID st.showGoroutineID env.stack <;> simp [h]

/-- When the trimmed stack dump has at least one field, the goroutine-id
lookup does not panic. -/
theorem getGoroutineID_ne_none (showG : Bool) (stack : String)
    (hW : goFields (goTrimStart stack "goroutine ") ≠ []) :
    getGoroutineID showG stack ≠ none := by
  unfold getGoroutineID
  cases showG
  · simp
  · rcases hF : goFields (goTrimStart stack "goroutine ") with _ | ⟨a, l⟩
    · exact absurd hF hW
    · simp [hF]

/-- The behavioural content shared by every non-Fatal channel: one
newline-terminated line when the bound level passes the threshold, nothing
otherwise. -/
theorem channel_spec (pfx msg : String) (lvl : LogLevel) (st : State) (env : Env)
    (g : String) (hg : getGoroutineID st.showGoroutineID env.stack = some g) :
    (lvl ≤ st.currentLogLevel → ∃ s, logWithTimestamp pfx msg lvl st env = some [s ++ "\n"]) ∧
    (st.currentLogLevel < lvl → logWithTimestamp pfx msg lvl st env = some []) :=
  ⟨fun h => ⟨_, logWithTimestamp_emit pfx msg lvl st env g hg h⟩,
   fun h => logWithTimestamp_filtered pfx msg lvl st env h⟩

/-- A concrete runtime environment used by the witnesses. -/
def envA : Env :=
  ⟨"2025-01-01 00:00:00.000 UTC", some ("/app/main.go", 42), "goroutine 1 [running]:"⟩

/-! ### Claim theorems -/

/-- C7: the severity enumeration is ordered Fatal (Panic) < Error < Warning
< Info < Debug < Trace with strictly increasing numeric values 0..5 (lower
value = more severe), and this numeric order is the one the threshold
comparison of `logWithTimestamp` uses: a call is suppressed exactly when
its level value exceeds the threshold value. -/
theorem severity_order :
    (PanicLevel < ErrorLevel ∧ ErrorLevel < WarningLevel ∧ WarningLevel < InfoLevel ∧
      InfoLevel < DebugLevel ∧ DebugLevel < TraceLevel) ∧
    (PanicLevel = 0 ∧ ErrorLevel = 1 ∧ WarningLevel = 2 ∧ InfoLevel = 3 ∧
      DebugLevel = 4 ∧ TraceLevel = 5) ∧
    (∀ pfx msg : String, ∀ lvl : LogLevel, ∀ st : State, ∀ env : Env,
      st.currentLogLevel < lvl → logWithTimestamp pfx msg lvl st env = some []) ∧
    (∀ pfx msg : String, ∀ lvl : LogLevel, ∀ st : State, ∀ env : Env, ∀ g : String,
      getGoroutineID st.showGoroutineID env.stack = some g →
      lvl ≤ st.currentLogLevel → ∃ s, logWithTimestamp pfx msg lvl st env = some [s]) := by
  refine ⟨by decide, by decide, ?_, ?_⟩
  · exact fun pfx msg lvl st env h => logWithTimestamp_filtered pfx msg lvl st env h
  · exact fun pfx msg lvl st env g hg h => ⟨_, logWithTimestamp_emit pfx msg lvl st env g hg h⟩

/-- C7 witness: with the default threshold (Info), a Trace-level call is
suppressed. -/
theorem severity_order_witness :
    logWithTimestamp "P" "m" TraceLevel initialState envA = some [] :=
  severity_order.2.2.1 "P" "m" TraceLevel initialState envA (by decide)

/-- C8: each setter replaces exactly its own field and leaves the other two
configuration fields unchanged (the setters are total `State → State`
functions, so they produce no output and cannot fail). -/
theorem setters_frame (st : State) (l : LogLevel) (b : Bool) :
    (SetLogLevel l st).currentLogLevel = l ∧
    (SetLogLevel l st).showFileLine = st.showFileLine ∧
    (SetLogLevel l st).showGoroutineID = st.showGoroutineID ∧
    (SetShowFileLine b st).showFileLine = b ∧
    (SetShowFileLine b st).currentLogLevel = st.currentLogLevel ∧
    (SetShowFileLine b st).showGoroutineID = st.showGoroutineID ∧
    (SetShowGoroutineID b st).showGoroutineID = b ∧
    (SetShowGoroutineID b st).currentLogLevel = st.currentLogLevel ∧
    (SetShowGoroutineID b st).showFileLine = st.showFileLine :=
  ⟨rfl, rfl, rfl, rfl, rfl, rfl, rfl, rfl, rfl⟩

/-- C1: for every non-Fatal channel with bound severity S
(Info/Success/Init/Config/Metric at Info; Warning, Error, Debug, Trace at
their own level) and every threshold M, the call writes exactly one
newline-terminated line when S ≤ M and writes nothing when M < S. -/
theorem nonfatal_threshold_filtering (st : State) (env : Env)
    (msg name value : String) (tags : List String) (g : String)
    (hg : getGoroutineID st.showGoroutineID env.stack = some g) :
    ((InfoLevel ≤ st.currentLogLevel → ∃ s, Info msg st env = some [s ++ "\n"]) ∧
      (st.currentLogLevel < InfoLevel → Info msg st env = some [])) ∧
    ((InfoLevel ≤ st.currentLogLevel → ∃ s, Success msg st env = some [s ++ "\n"]) ∧
      (st.currentLogLevel < InfoLevel → Success msg st env = some [])) ∧
    ((InfoLevel ≤ st.currentLogLevel → ∃ s, Init msg st env = some [s ++ "\n"]) ∧
      (st.currentLogLevel < InfoLevel → Init msg st env = some [])) ∧
    ((InfoLevel ≤ st.currentLogLevel → ∃ s, Config msg st env = some [s ++ "\n"]) ∧
      (st.currentLogLevel < InfoLevel → Config msg st env = some [])) ∧
    ((WarningLevel ≤ st.currentLogLevel → ∃ s, Warning msg st env = some [s ++ "\n"]) ∧
      (st.currentLogLevel < WarningLevel → Warning msg st env = some [])) ∧
    ((ErrorLevel ≤ st.currentLogLevel → ∃ s, Error msg st env = some [s ++ "\n"]) ∧
      (st.currentLogLevel < ErrorLevel → Error msg st env = some [])) ∧
    ((DebugLevel ≤ st.currentLogLevel → ∃ s, Debug msg st env = some [s ++ "\n"]) ∧
      (st.currentLogLevel < DebugLevel → Debug msg st env = some [])) ∧
    ((TraceLevel ≤ st.currentLogLevel → ∃ s, Trace msg st env = some [s ++ "\n"]) ∧
      (st.currentLogLevel < TraceLevel → Trace msg st env = some [])) ∧
    ((InfoLevel ≤ st.currentLogLevel → ∃ s, Metric name value tags st env = some [s ++ "\n"]) ∧
      (st.currentLogLevel < InfoLevel → Metric name value tags st env = some [])) :=
  ⟨channel_spec _ msg InfoLevel st env g hg, channel_spec _ msg InfoLevel st env g hg,
   channel_spec _ msg InfoLevel st env g hg, channel_spec _ msg InfoLevel st env g hg,
   channel_spec _ msg WarningLevel st env g hg, channel_spec _ msg ErrorLevel st env g hg,
   channel_spec _ msg DebugLevel st env g hg, channel_spec _ msg TraceLevel st env g hg,
   channel_spec _ _ InfoLevel st env g hg⟩

/-- C1 witness: with threshold Warning, `Info "x"` writes nothing. -/
theorem nonfatal_threshold_filtering_witness :
    Info "x" ⟨WarningLevel, false, false⟩ ⟨"ts", none, ""⟩ = some [] :=
  (nonfatal_threshold_filtering ⟨WarningLevel, false, false⟩ ⟨"ts", none, ""⟩
    "x" "n" "v" [] "" rfl).1.2 (by decide)

/-- C2: for every threshold value of the six-member enumeration, `Panic`
writes exactly one newline-terminated line and then aborts carrying its
message; the emission is never suppressed by an enumeration threshold. -/
theorem fatal_always_emits_and_aborts (msg : String) (st : State) (env : Env) (g : String)
    (hM : st.currentLogLevel ∈ enumLevels)
    (hg : getGoroutineID st.showGoroutineID env.stack = some g) :
    (∃ s, (Panic msg st env).1 = some [s ++ "\n"]) ∧ (Panic msg st env).2 = msg := by
  have h0 : PanicLevel ≤ st.currentLogLevel := by
    simp only [enumLevels, List.mem_cons, List.not_mem_nil, or_false] at hM
    rcases hM with h | h | h | h | h | h <;> rw [h] <;> decide
  exact ⟨⟨_, logWithTimestamp_emit panicPrefix msg PanicLevel st env g hg h0⟩, rfl⟩

/-- C2 witness: at the default (Info) threshold, `Panic "boom"` emits one
line and the abort carries "boom". -/
theorem fatal_always_emits_and_aborts_witness :
    (∃ s, (Panic "boom" initialState envA).1 = some [s ++ "\n"]) ∧
    (Panic "boom" initialState envA).2 = "boom" :=
  fatal_always_emits_and_aborts "boom" initialState envA "(goroutine 1)"
    (by decide) (by decide)

/-- C3: Success, Init and Config filter at exactly Info severity: under any
threshold each of them writes nothing iff Info writes nothing, and when the
threshold admits Info all four write the same assembled line except for the
channel prefix. -/
theorem success_init_config_bind_info (st : State) (env : Env) (msg : String) :
    (Success msg st env = some [] ↔ Info msg st env = some []) ∧
    (Init msg st env = some [] ↔ Info msg st env = some []) ∧
    (Config msg st env = some [] ↔ Info msg st env = some []) ∧
    (∀ g, getGoroutineID st.showGoroutineID env.stack = some g →
      InfoLevel ≤ st.currentLogLevel →
      Success msg st env = some [assembleLine successPrefix st env g msg ++ "\n"] ∧
      Init msg st env = some [assembleLine initPrefix st env g msg ++ "\n"] ∧
      Config msg st env = some [assembleLine configPrefix st env g msg ++ "\n"] ∧
      Info msg st env = some [assembleLine infoPrefix st env g msg ++ "\n"]) := by
  refine ⟨?_, ?_, ?_, ?_⟩
  · rw [Success, Info, logWithTimestamp_eq_nil_iff, logWithTimestamp_eq_nil_iff]
  · rw [Init, Info, logWithTimestamp_eq_nil_iff, logWithTimestamp_eq_nil_iff]
  · rw [Config, Info, logWithTimestamp_eq_nil_iff, logWithTimestamp_eq_nil_iff]
  · intro g hg h
    exact ⟨logWithTimestamp_emit _ msg InfoLevel st env g hg h,
      logWithTimestamp_emit _ msg InfoLevel st env g hg h,
      logWithTimestamp_emit _ msg InfoLevel st env g hg h,
      logWithTimestamp_emit _ msg InfoLevel st env g hg h⟩

/-- C3 witness: at the default threshold, Success and Info both emit, with
their respective prefixes on otherwise identical lines. -/
theorem success_init_config_bind_info_witness :
    Success "m" initialState envA =
      some [assembleLine successPrefix initialState envA "(goroutine 1)" "m" ++ "\n"] ∧
    Info "m" initialState envA =
      some [assembleLine infoPrefix initialState envA "(goroutine 1)" "m" ++ "\n"] := by
  have h := (success_init_config_bind_info initialState envA "m").2.2.2
    "(goroutine 1)" (by decide) (by decide)
  exact ⟨h.1, h.2.2.2⟩

/-- C4: Metric formats its body as the name, ": ", the value, and — only
when at least one tag is given — a space and the tags joined with ", "
inside square brackets in call order; with zero tags no bracket segment
appears. Metric filters at Info severity. -/
theorem metric_formatting (st : State) (env : Env) (name value : String)
    (tags : List String) :
    (st.currentLogLevel < InfoLevel → Metric name value tags st env = some []) ∧
    (∀ g, getGoroutineID st.showGoroutineID env.stack = some g →
      InfoLevel ≤ st.currentLogLevel →
      Metric name value tags st env =
        some [assembleLine metricPrefix st env g
          (name ++ ": " ++ value ++
            (if tags = [] then "" else " [" ++ String.intercalate ", " tags ++ "]")) ++
          "\n"]) := by
  constructor
  · intro h
    simp only [Metric]
    exact logWithTimestamp_filtered _ _ _ _ _ h
  · intro g hg h
    rcases tags with _ | ⟨t, ts⟩
    · simpa [Metric] using logWithTimestamp_emit metricPrefix _ InfoLevel st env g hg h
    · simpa [Metric] using logWithTimestamp_emit metricPrefix _ InfoLevel st env g hg h

/-- C4 witness: the spec's concrete scenario, at the default threshold,
with the full line evaluated. -/
theorem metric_formatting_witness :
    Metric "latency_ms" "156.3" ["endpoint=/api/users"] initialState envA =
      some [metricPrefix ++ " [" ++ envA.timestamp ++ "]" ++ " [" ++ "main.go:42" ++ "]" ++
        " " ++ "(goroutine 1)" ++ " " ++ "latency_ms: 156.3 [endpoint=/api/users]" ++
        "\n"] := by
  have h := (metric_formatting initialState envA "latency_ms" "156.3"
    ["endpoint=/api/users"]).2 "(goroutine 1)" (by decide) (by decide)
  rw [h]
  decide

/-- C5 (amended): an unresolvable caller location degrades to silent
omission (the line is the one produced with the annotation disabled), and
formatting cannot fail when the goroutine annotation is disabled or the
runtime stack dump has at least one field (as `runtime.Stack` guarantees);
the context-identifier lookup itself has no omission path for a field-less
stack dump. -/
theorem degraded_omission (st : State) (env : Env) (pfx msg : String) (lvl : LogLevel) :
    (env.caller = none →
      logWithTimestamp pfx msg lvl st env =
        logWithTimestamp pfx msg lvl { st with showFileLine := false } env) ∧
    (goFields (goTrimStart env.stack "goroutine ") ≠ [] →
      logWithTimestamp pfx msg lvl st env ≠ none) ∧
    (st.showGoroutineID = false → logWithTimestamp pfx msg lvl st env ≠ none) := by
  refine ⟨fun hc => ?_, fun hW => ?_, fun hG => ?_⟩
  · cases hFL : st.showFileLine <;>
      simp [logWithTimestamp, assembleLine, assembleHead, getFileInfo, hc, hFL]
  · by_cases h : st.currentLogLevel < lvl
    · rw [logWithTimestamp_filtered _ _ _ _ _ h]
      simp
    · have hne := getGoroutineID_ne_none st.showGoroutineID env.stack hW
      rcases hgo : getGoroutineID st.showGoroutineID env.stack with _ | g
      · exact absurd hgo hne
      · rw [logWithTimestamp_emit _ _ _ _ _ _ hgo (not_lt.mp h)]
        simp
  · by_cases h : st.currentLogLevel < lvl
    · rw [logWithTimestamp_filtered _ _ _ _ _ h]
      simp
    · have hgo : getGoroutineID st.showGoroutineID env.stack = some "" := by
        rw [hG]
        rfl
      rw [logWithTimestamp_emit _ _ _ _ _ _ hgo (not_lt.mp h)]
      simp

/-- C5 witness: an unresolved caller produces the same line as a disabled
source-location annotation. -/
theorem degraded_omission_witness :
    logWithTimestamp "P" "m" InfoLevel initialState ⟨"ts", none, "goroutine 1 [running]:"⟩ =
      logWithTimestamp "P" "m" InfoLevel { initialState with showFileLine := false }
        ⟨"ts", none, "goroutine 1 [running]:"⟩ :=
  (degraded_omission initialState ⟨"ts", none, "goroutine 1 [running]:"⟩ "P" "m"
    InfoLevel).1 rfl

/-- C5 counterexample: with the context-id annotation enabled, a stack dump
with no parseable field makes the formatting fail (the Go code panics on
`...Fields(...)[0]`, modelled by `none`) instead of silently omitting the
field. -/
theorem context_id_failure_panics :
    goFields (goTrimStart "" "goroutine ") = [] ∧
    Info "x" ⟨InfoLevel, true, true⟩ ⟨"ts", none, ""⟩ = none :=
  ⟨rfl, rfl⟩

/-- C6: every emitted line is the channel prefix, a space, the bracketed
timestamp, then — only when nonempty — a space and the bracketed file:line
segment, then — only when nonempty — a space and the parenthesized
goroutine segment, then a space and the message; with both annotations
disabled the line is exactly prefix, timestamp and message. -/
theorem line_assembly (st : State) (env : Env) (pfx msg g : String) (lvl : LogLevel)
    (hg : getGoroutineID st.showGoroutineID env.stack = some g)
    (h : lvl ≤ st.currentLogLevel) :
    (logWithTimestamp pfx msg lvl st env =
      some [pfx ++ " [" ++ env.timestamp ++ "]" ++
        (if getFileInfo st.showFileLine env.caller ≠ "" then
          " [" ++ getFileInfo st.showFileLine env.caller ++ "]" else "") ++
        (if g ≠ "" then " " ++ g else "") ++ " " ++ msg ++ "\n"]) ∧
    (st.showFileLine = false → st.showGoroutineID = false →
      logWithTimestamp pfx msg lvl st env =
        some [pfx ++ " [" ++ env.timestamp ++ "]" ++ " " ++ msg ++ "\n"]) := by
  constructor
  · rw [logWithTimestamp_emit pfx msg lvl st env g hg h]
    by_cases h1 : getFileInfo st.showFileLine env.caller ≠ ""
    · by_cases h2 : g ≠ ""
      · simp only [assembleLine, assembleHead, if_pos h1, if_pos h2, String.append_assoc]
      · simp only [assembleLine, assembleHead, if_pos h1, if_neg h2, String.append_assoc,
          String.append_empty]
    · by_cases h2 : g ≠ ""
      · simp only [assembleLine, assembleHead, if_neg h1, if_pos h2, String.append_assoc,
          String.append_empty]
      · simp only [assembleLine, assembleHead, if_neg h1, if_neg h2, String.append_assoc,
          String.append_empty]
  · intro hFL hG
    have hg0 : g = "" := by
      rw [hG] at hg
      simpa [getGoroutineID] using hg.symm
    have hfi : getFileInfo st.showFileLine env.caller = "" := by
      rw [hFL]
      rfl
    have hhead : assembleHead pfx st env "" = pfx ++ " [" ++ env.timestamp ++ "]" := by
      simp only [assembleHead, hfi]
      rw [if_neg (by simp), if_neg (by simp)]
    rw [logWithTimestamp_emit pfx msg lvl st env g hg h, hg0]
    simp only [assembleLine, hhead]

/-- C6 witness: with both annotations disabled the line is exactly prefix,
bracketed timestamp and message. -/
theorem line_assembly_witness :
    logWithTimestamp "P" "m" InfoLevel ⟨InfoLevel, false, false⟩ ⟨"ts", none, ""⟩ =
      some ["P" ++ " [" ++ "ts" ++ "]" ++ " " ++ "m" ++ "\n"] :=
  (line_assembly ⟨InfoLevel, false, false⟩ ⟨"ts", none, ""⟩ "P" "m" "" InfoLevel rfl
    (by decide)).2 rfl rfl

/-- C9: the value carried by the abrupt termination raised by Panic is
exactly the interpolated message, and that same string is the message body
terminating the emitted line. -/
theorem panic_value_is_message (msg : String) (st : State) (env : Env) :
    (Panic msg st env).2 = msg ∧
    (∀ g, getGoroutineID st.showGoroutineID env.stack = some g →
      PanicLevel ≤ st.currentLogLevel →
      (Panic msg st env).1 =
        some [assembleHead panicPrefix st env g ++ " " ++ msg ++ "\n"]) := by
  refine ⟨rfl, fun g hg h => ?_⟩
  have he := logWithTimestamp_emit panicPrefix msg PanicLevel st env g hg h
  simpa [Panic, assembleLine] using he

/-- C9 witness: at the default threshold, `Panic "oops"` emits a line
ending in " oops" and the abort carries "oops". -/
theorem panic_value_is_message_witness :
    (Panic "oops" initialState envA).1 =
      some [assembleHead panicPrefix initialState envA "(goroutine 1)" ++ " " ++ "oops" ++
        "\n"] ∧
    (Panic "oops" initialState envA).2 = "oops" := by
  have h := panic_value_is_message "oops" initialState envA
  exact ⟨h.2 "(goroutine 1)" (by decide) (by decide), h.1⟩

/-- C10: SetLogLevel accepts any integer-valued level; with a threshold
numerically below PanicLevel every channel, Panic included, writes zero
lines, while Panic still aborts carrying its message. -/
theorem below_panic_threshold (st : State) (env : Env) (msg name value : String)
    (tags : List String) (l : LogLevel) :
    (SetLogLevel l st).currentLogLevel = l ∧
    (st.currentLogLevel < PanicLevel →
      Info msg st env = some [] ∧ Success msg st env = some [] ∧
      Init msg st env = some [] ∧ Config msg st env = some [] ∧
      Warning msg st env = some [] ∧ Error msg st env = some [] ∧
      Debug msg st env = some [] ∧ Trace msg st env = some [] ∧
      Metric name value tags st env = some [] ∧
      (Panic msg st env).1 = some [] ∧ (Panic msg st env).2 = msg) := by
  refine ⟨rfl, fun h => ?_⟩
  have hl : ∀ lvl : LogLevel, PanicLevel ≤ lvl → st.currentLogLevel < lvl :=
    fun lvl h2 => lt_of_lt_of_le h h2
  refine ⟨logWithTimestamp_filtered _ _ _ _ _ (hl InfoLevel (by decide)),
    logWithTimestamp_filtered _ _ _ _ _ (hl InfoLevel (by decide)),
    logWithTimestamp_filtered _ _ _ _ _ (hl InfoLevel (by decide)),
    logWithTimestamp_filtered _ _ _ _ _ (hl InfoLevel (by decide)),
    logWithTimestamp_filtered _ _ _ _ _ (hl WarningLevel (by decide)),
    logWithTimestamp_filtered _ _ _ _ _ (hl ErrorLevel (by decide)),
    logWithTimestamp_filtered _ _ _ _ _ (hl DebugLevel (by decide)),
    logWithTimestamp_filtered _ _ _ _ _ (hl TraceLevel (by decide)),
    ?_,
    logWithTimestamp_filtered _ _ _ _ _ (hl PanicLevel (by decide)),
    rfl⟩
  simp only [Metric]
  exact logWithTimestamp_filtered _ _ _ _ _ (hl InfoLevel (by decide))

/-- C10 witness: with threshold -1 (below PanicLevel), Panic writes nothing
yet still aborts with its message. -/
theorem below_panic_threshold_witness :
    (Panic "x" ⟨-1, true, true⟩ envA).1 = some [] ∧
    (Panic "x" ⟨-1, true, true⟩ envA).2 = "x" := by
  have h := (below_panic_threshold ⟨-1, true, true⟩ envA "x" "n" "v" [] 0).2 (by decide)
  exact ⟨h.2.2.2.2.2.2.2.2.2.1, h.2.2.2.2.2.2.2.2.2.2⟩

end Clog
